import Mathlib

/-!
# Verification of the service-catalog reconciliation controller

Shallow embedding of the controller code of `pmorie/service-catalog`
(package `controller`): the instance reconciler (`reconcileInstance`,
`reconcileInstanceDelete`, `pollInstance`), the condition machinery
(`setInstanceConditionInternal`, `updateClusterServiceBrokerCondition`),
the broker reconciler (`shouldReconcileClusterServiceBroker`,
`reconcileClusterServiceBroker`), catalog conversion (`convertCatalog`,
`convertServicePlans`) and the generic work-queue worker (`worker`).

Conventions of the embedding:
* Machine times (`metav1.Time`, `time.Time`) are natural numbers; a single
  instant `now` stands for the wall-clock reads performed during one
  reconciliation.
* The API server is an infallible store: each `UpdateStatus` call replaces
  the persisted object with the written one (this matches the fake clients
  used by the repository's own tests, which perform no conflict checking).
* Calls to external collaborators that are not part of the sources (the
  resolver `getServiceClassPlanAndBroker`, the namespace lookup, parameter
  unmarshalling, and the broker HTTP client) are oracles supplied in an
  environment record; the reconciler's behaviour is a pure function of the
  instance, the environment, and the current store.
* Events emitted to the event recorder are fire-and-forget and are not
  tracked, since no claim concerns them.
-/

namespace ServiceCatalog

/-! ## Core data model (package `v1alpha1`) -/

/-- `v1alpha1.ConditionStatus`: the Go constants "True", "False", "Unknown". -/
inductive ConditionStatus where
  | conditionTrue
  | conditionFalse
  | conditionUnknown
  deriving DecidableEq, Repr

/-- `v1alpha1.InstanceConditionType`: "Ready" and "Failed". -/
inductive InstanceConditionType where
  | ready
  | failed
  deriving DecidableEq, Repr

/-- `v1alpha1.InstanceCondition`. `LastTransitionTime` is a `Nat` instant. -/
structure InstanceCondition where
  condType : InstanceConditionType
  status : ConditionStatus
  reason : String
  message : String
  lastTransitionTime : Nat
  deriving DecidableEq, Repr

/-- The part of `v1alpha1.ServiceCatalogInstanceSpec` the controller reads.
`parameters` models `Spec.Parameters` (`*runtime.RawExtension`): an opaque
payload that is `nil` or a raw blob. -/
structure InstanceSpec where
  serviceClassName : String
  planName : String
  externalID : String
  parameters : Option String
  deriving DecidableEq, Repr

/-- `v1alpha1.ServiceCatalogInstanceStatus`. -/
structure InstanceStatus where
  conditions : List InstanceCondition
  asyncOpInProgress : Bool
  checksum : Option String
  lastOperation : Option String
  dashboardURL : Option String
  deriving DecidableEq, Repr

/-- `v1alpha1.ServiceCatalogInstance` with the `ObjectMeta` fields the
controller reads (`DeletionTimestamp`, `Finalizers`). -/
structure Instance where
  namespaceName : String
  name : String
  deletionTimestamp : Option Nat
  finalizers : List String
  spec : InstanceSpec
  status : InstanceStatus
  deriving DecidableEq, Repr

/-- `v1alpha1.FinalizerServiceCatalog`. -/
def finalizerServiceCatalog : String := "kubernetes-incubator/service-catalog"

/-- `sets.NewString(..).Delete(tok)` followed by `.List()`: removal of a
token from a string set, represented on the underlying list (membership is
all any caller inspects; the sortedness of `List()` is not modelled). -/
def stringSetDelete (l : List String) (s : String) : List String :=
  l.filter (fun x => x ≠ s)

/-! ## Reason/message constants (package `controller` const block) -/

def errorWithParameters : String := "ErrorWithParameters"
def errorProvisionCallFailedReason : String := "ProvisionCallFailed"
def errorErrorCallingProvisionReason : String := "ErrorCallingProvision"
def errorDeprovisionCalledReason : String := "DeprovisionCallFailed"
def errorPollingLastOperationReason : String := "ErrorPollingLastOperation"
def errorFetchingCatalogReason : String := "ErrorFetchingCatalog"
def errorSyncingCatalogReason : String := "ErrorSyncingCatalog"
def errorListingServiceClassesReason : String := "ErrorListingServiceClasses"
def errorReconciliationRetryTimeoutReason : String := "ErrorReconciliationRetryTimeout"

/-- `errorFindingNamespaceInstanceReason` is referenced by the instance
reconciler; the const block in the sources carries the same-valued
`errorFindingNamespaceServiceInstanceReason`. -/
def errorFindingNamespaceInstanceReason : String := "ErrorFindingNamespaceForInstance"

def successDeprovisionReason : String := "DeprovisionedSuccessfully"
def successDeprovisionMessage : String := "The instance was deprovisioned successfully"
def successProvisionReason : String := "ProvisionedSuccessfully"
def successProvisionMessage : String := "The instance was provisioned successfully"
def successFetchedCatalogReason : String := "FetchedCatalog"
def successFetchedCatalogMessage : String := "Successfully fetched catalog entries from broker."
def successClusterServiceBrokerDeletedReason : String := "DeletedSuccessfully"
def asyncProvisioningReason : String := "Provisioning"
def asyncProvisioningMessage : String := "The instance is being provisioned asynchronously"
def asyncDeprovisioningReason : String := "Deprovisioning"
def asyncDeprovisioningMessage : String := "The instance is being deprovisioned asynchronously"

/-! ## Condition machine for instances (`setInstanceConditionInternal`) -/

/-- The scan-and-replace loop of `setInstanceConditionInternal`: the first
condition whose `Type` matches is replaced (keeping its
`LastTransitionTime` when the status is unchanged, bumping it to `t`
otherwise); if no condition matches, the new condition is appended with
`LastTransitionTime = t`.  On the empty list this also yields the dedicated
`len == 0` branch of the Go code. -/
def setInstanceCondScan (newC : InstanceCondition) (t : Nat) :
    List InstanceCondition → List InstanceCondition
  | [] => [{ newC with lastTransitionTime := t }]
  | c :: rest =>
    if c.condType = newC.condType then
      { newC with
        lastTransitionTime :=
          if c.status ≠ newC.status then t else c.lastTransitionTime } :: rest
    else
      c :: setInstanceCondScan newC t rest

/-- `setInstanceConditionInternal`: sets one condition on an instance's
status, parameterized on the time `t`. -/
def setInstanceConditionInternal (toUpdate : Instance)
    (conditionType : InstanceConditionType) (status : ConditionStatus)
    (reason message : String) (t : Nat) : Instance :=
  let newCondition : InstanceCondition :=
    { condType := conditionType, status := status, reason := reason,
      message := message, lastTransitionTime := 0 }
  { toUpdate with
    status := { toUpdate.status with
      conditions := setInstanceCondScan newCondition t toUpdate.status.conditions } }

/-- `setInstanceCondition`: `setInstanceConditionInternal` at `metav1.Now()`;
the instant is threaded explicitly. -/
def setInstanceCondition (toUpdate : Instance)
    (conditionType : InstanceConditionType) (status : ConditionStatus)
    (reason message : String) (now : Nat) : Instance :=
  setInstanceConditionInternal toUpdate conditionType status reason message now

/-- `isInstanceFailed`: whether the instance has a Failed condition with
status True. -/
def isInstanceFailed (inst : Instance) : Bool :=
  inst.status.conditions.any
    (fun c => c.condType = InstanceConditionType.failed ∧
      c.status = ConditionStatus.conditionTrue)

/-! ## Open-service-broker client shapes (package `osb`) -/

/-- Errors returned by the osb client: a structured HTTP error from the
broker, or any other (transport) error.  `osb.IsHTTPError` distinguishes
the former; `osb.IsGoneError` recognizes an HTTP error with status 410. -/
inductive OsbError where
  | httpError (statusCode : Nat) (errorMessage description : String)
  | otherError (msg : String)
  deriving DecidableEq, Repr

/-- `osb.IsHTTPError` (as a predicate). -/
def isHTTPError : OsbError → Bool
  | .httpError _ _ _ => true
  | .otherError _ => false

/-- `osb.IsGoneError`: an HTTP error with status `http.StatusGone` (410). -/
def isGoneError : OsbError → Bool
  | .httpError code _ _ => code = 410
  | .otherError _ => false

/-- Rendering of an osb error into the message the reconciler logs/returns. -/
def osbErrorMessage : OsbError → String
  | .httpError code em d =>
    "Status code: " ++ toString code ++ "; ErrorMessage: " ++ em ++
      "; description: " ++ d
  | .otherError m => m

/-- `osb.ProvisionResponse`. -/
structure ProvisionResponse where
  async : Bool
  operationKey : Option String
  dashboardURL : Option String
  deriving DecidableEq, Repr

/-- `osb.DeprovisionResponse`. -/
structure DeprovisionResponse where
  async : Bool
  operationKey : Option String
  deriving DecidableEq, Repr

/-- `osb.LastOperationState`: "in progress", "succeeded", "failed", or any
other string (rejected by the reconciler's `default` branch). -/
inductive LastOperationState where
  | stateInProgress
  | stateSucceeded
  | stateFailed
  | stateOther (s : String)
  deriving DecidableEq, Repr

/-- `osb.LastOperationResponse`. -/
structure LastOperationResponse where
  state : LastOperationState
  description : Option String
  deriving DecidableEq, Repr

/-- Outcome of a fallible external call (mirrors Go's `(resp, err)` pair). -/
inductive CallResult (α : Type) where
  | ok (response : α)
  | err (e : OsbError)
  deriving DecidableEq, Repr

/-! ## The reconciliation environment and effect context -/

/-- Oracles for the external collaborators consulted during one instance
reconciliation.  `resolveOk` stands for `getServiceClassPlanAndBroker`
(class/plan/broker lookup and client construction, not among the sources);
`nsOk` for the namespace `Get`; `unmarshalOk` for `unmarshalParameters`. -/
structure InstanceEnv where
  resolveOk : Bool
  nsOk : Bool
  unmarshalOk : Bool
  provisionResult : CallResult ProvisionResponse
  deprovisionResult : CallResult DeprovisionResponse
  pollResult : CallResult LastOperationResponse
  now : Nat
  deriving DecidableEq, Repr

/-- Effect context of one reconciliation: the persisted copy of the
instance (the API server store) plus counters for broker calls, status
writes, and polling-queue additions. -/
structure Ctx where
  stored : Instance
  provisionCalls : Nat := 0
  deprovisionCalls : Nat := 0
  pollCalls : Nat := 0
  statusUpdates : Nat := 0
  pollingAdds : Nat := 0
  deriving DecidableEq, Repr

/-- Modelled from the spec: the digest `checksum.InstanceSpecChecksum` over
the spec fields that define desired provisioned state (class/plan
reference, parameters, external ID).  The checksum package is not among the
sources; per the spec, semantically equal specs yield equal digests, which
this injective encoding satisfies. -/
def instanceSpecChecksum (s : InstanceSpec) : String :=
  s.serviceClassName ++ "|" ++ s.planName ++ "|" ++ s.externalID ++ "|" ++
    (match s.parameters with
     | some p => "some:" ++ p
     | none => "none")

/-- Modelled from the spec: the API server's status-update strategy (not
among the sources) stamps `status.Checksum` with the digest of the spec on
a successful status write; with `stamp = false` the written object is
persisted verbatim.  Every theorem that does not concern the checksum holds
for both values of `stamp`. -/
def stampStatusChecksum (stamp : Bool) (toUpdate : Instance) : Instance :=
  if stamp then
    { toUpdate with status :=
      { toUpdate.status with checksum := some (instanceSpecChecksum toUpdate.spec) } }
  else toUpdate

/-- `updateInstanceStatus`: persist `toUpdate` via `UpdateStatus` (the
infallible store replaces the persisted object). -/
def updateInstanceStatus (stamp : Bool) (toUpdate : Instance) (ctx : Ctx) : Ctx :=
  { ctx with
    stored := stampStatusChecksum stamp toUpdate,
    statusUpdates := ctx.statusUpdates + 1 }

/-- `updateInstanceCondition`: deep-copy the given instance, set the
condition, and persist via `UpdateStatus`. -/
def updateInstanceCondition (stamp : Bool) (inst : Instance)
    (conditionType : InstanceConditionType) (status : ConditionStatus)
    (reason message : String) (now : Nat) (ctx : Ctx) : Ctx :=
  updateInstanceStatus stamp
    (setInstanceCondition inst conditionType status reason message now) ctx

/-- `updateInstanceFinalizers`: fetch the latest persisted copy, set its
finalizer list, and persist via `UpdateStatus`. -/
def updateInstanceFinalizers (stamp : Bool) (finalizers : List String)
    (ctx : Ctx) : Ctx :=
  updateInstanceStatus stamp { ctx.stored with finalizers := finalizers } ctx

/-! ## `reconcileInstanceDelete` -/

/-- `reconcileInstanceDelete`: handles an instance whose deletion timestamp
is set.  Returns the error (`none` = success) and the updated effect
context. -/
def reconcileInstanceDelete (stamp : Bool) (env : InstanceEnv)
    (inst : Instance) (ctx : Ctx) : Option String × Ctx :=
  if inst.deletionTimestamp = none then
    (none, ctx)
  else if ¬ inst.finalizers.contains finalizerServiceCatalog then
    (none, ctx)
  else if ¬ inst.status.asyncOpInProgress ∧ inst.status.checksum = none then
    -- never provisioned: just clear the finalizer
    (none, updateInstanceFinalizers stamp
      (stringSetDelete inst.finalizers finalizerServiceCatalog) ctx)
  else if ¬ env.resolveOk then
    (some "error resolving service class, plan, and broker", ctx)
  else
    let toUpdate := inst
    if ¬ isInstanceFailed inst then
      -- deprovision at the broker
      let ctx := { ctx with deprovisionCalls := ctx.deprovisionCalls + 1 }
      match env.deprovisionResult with
      | .err e =>
        -- both the HTTP-error and the transport-error branch set the same
        -- condition and propagate the error
        let toUpdate := setInstanceCondition toUpdate .ready .conditionUnknown
          errorDeprovisionCalledReason
          ("Deprovision call failed. " ++ osbErrorMessage e) env.now
        (some (osbErrorMessage e), updateInstanceStatus stamp toUpdate ctx)
      | .ok response =>
        let (toUpdate, ctx) :=
          if response.async then
            let toUpdate :=
              match response.operationKey with
              | some k =>
                if k ≠ "" then
                  { toUpdate with status :=
                    { toUpdate.status with lastOperation := some k } }
                else toUpdate
              | none => toUpdate
            let toUpdate :=
              { toUpdate with status :=
                { toUpdate.status with asyncOpInProgress := true } }
            let toUpdate := setInstanceCondition toUpdate .ready .conditionFalse
              asyncDeprovisioningReason asyncDeprovisioningMessage env.now
            (toUpdate, updateInstanceStatus stamp toUpdate ctx)
          else (toUpdate, ctx)
        -- NOTE: the Go code falls through to this point from the async
        -- branch as well (there is no early return after the async status
        -- update)
        let toUpdate := setInstanceCondition toUpdate .ready .conditionFalse
          successDeprovisionReason successDeprovisionMessage env.now
        let ctx := updateInstanceStatus stamp toUpdate ctx
        (none, updateInstanceFinalizers stamp
          (stringSetDelete inst.finalizers finalizerServiceCatalog) ctx)
    else
      -- instance already failed: skip the broker call, clear the finalizer
      (none, updateInstanceFinalizers stamp
        (stringSetDelete inst.finalizers finalizerServiceCatalog) ctx)

/-! ## `pollInstance` -/

/-- `pollInstance`: polls last operation for an instance with an
asynchronous operation in flight. -/
def pollInstance (stamp : Bool) (env : InstanceEnv) (inst : Instance)
    (ctx : Ctx) : Option String × Ctx :=
  let deleting := inst.deletionTimestamp ≠ none
  let ctx := { ctx with pollCalls := ctx.pollCalls + 1 }
  match env.pollResult with
  | .err e =>
    if isGoneError e ∧ deleting then
      -- http.StatusGone during deletion is success: mark deleted, clear
      -- the finalizer
      let toUpdate :=
        { inst with status :=
          { inst.status with asyncOpInProgress := false } }
      let ctx := updateInstanceCondition stamp toUpdate .ready .conditionFalse
        successDeprovisionReason successDeprovisionMessage env.now ctx
      let ctx :=
        if toUpdate.finalizers.contains finalizerServiceCatalog then
          updateInstanceFinalizers stamp
            (stringSetDelete toUpdate.finalizers finalizerServiceCatalog) ctx
        else ctx
      (none, ctx)
    else
      (some ("Error polling last operation: " ++ osbErrorMessage e), ctx)
  | .ok response =>
    match response.state with
    | .stateInProgress =>
      let ctx :=
        if response.description ≠ none then
          let toUpdate :=
            { inst with status :=
              { inst.status with asyncOpInProgress := true } }
          -- NOTE: faithful to the source, which assigns the *message*
          -- constant to `reason` in the deleting case
          let reason :=
            if deleting then asyncDeprovisioningMessage else asyncProvisioningReason
          let message :=
            match response.description with
            | some d => asyncProvisioningMessage ++ " (" ++ d ++ ")"
            | none => asyncProvisioningMessage
          updateInstanceCondition stamp toUpdate .ready .conditionFalse
            reason message env.now ctx
        else ctx
      (some "last operation not completed (still in progress)", ctx)
    | .stateSucceeded =>
      let toUpdate :=
        { inst with status :=
          { inst.status with asyncOpInProgress := false } }
      if deleting then
        let ctx := updateInstanceCondition stamp toUpdate .ready .conditionFalse
          successDeprovisionReason successDeprovisionMessage env.now ctx
        let ctx :=
          if toUpdate.finalizers.contains finalizerServiceCatalog then
            updateInstanceFinalizers stamp
              (stringSetDelete toUpdate.finalizers finalizerServiceCatalog) ctx
          else ctx
        (none, ctx)
      else
        (none, updateInstanceCondition stamp toUpdate .ready .conditionTrue
          successProvisionReason successProvisionMessage env.now ctx)
    | .stateFailed =>
      let toUpdate :=
        { inst with status :=
          { inst.status with asyncOpInProgress := false } }
      let cond :=
        if deleting then ConditionStatus.conditionUnknown
        else ConditionStatus.conditionFalse
      let reason :=
        if deleting then errorDeprovisionCalledReason
        else errorProvisionCallFailedReason
      let msg :=
        if deleting then "Deprovision call failed:" else "Provision call failed: "
      (none, updateInstanceCondition stamp toUpdate .ready cond reason msg
        env.now ctx)
    | .stateOther s =>
      (some ("Got invalid state in LastOperationResponse: " ++ s), ctx)

/-- `pollInstanceInternal`: resolve the class/plan/broker and poll. -/
def pollInstanceInternal (stamp : Bool) (env : InstanceEnv)
    (inst : Instance) (ctx : Ctx) : Option String × Ctx :=
  if ¬ env.resolveOk then
    (some "error resolving service class, plan, and broker", ctx)
  else pollInstance stamp env inst ctx

/-! ## `reconcileInstance` -/

/-- `reconcileInstance`: the instance control loop.  Starts from a fresh
effect context whose store holds the instance as observed. -/
def reconcileInstance (stamp : Bool) (env : InstanceEnv)
    (inst : Instance) : Option String × Ctx :=
  let ctx : Ctx := { stored := inst }
  -- sticky permanent failure: skip event unless deleting
  if isInstanceFailed inst ∧ inst.deletionTimestamp = none then
    (none, ctx)
  -- checksum guard: no async op, checksum present and matching, not deleting
  else if ¬ inst.status.asyncOpInProgress ∧
      inst.deletionTimestamp = none ∧
      inst.status.checksum = some (instanceSpecChecksum inst.spec) then
    (none, ctx)
  -- deletion branch
  else if inst.deletionTimestamp ≠ none then
    reconcileInstanceDelete stamp env inst ctx
  else if ¬ env.resolveOk then
    (some "error resolving service class, plan, and broker", ctx)
  else if inst.status.asyncOpInProgress then
    pollInstance stamp env inst ctx
  else
    let toUpdate := inst
    -- unmarshal parameters
    if inst.spec.parameters ≠ none ∧ ¬ env.unmarshalOk then
      let toUpdate := setInstanceCondition toUpdate .ready .conditionFalse
        errorWithParameters "Error unmarshaling instance parameters. " env.now
      (some "Failed to unmarshal Instance parameters",
        updateInstanceStatus stamp toUpdate ctx)
    -- namespace lookup
    else if ¬ env.nsOk then
      let toUpdate := setInstanceCondition toUpdate .ready .conditionFalse
        errorFindingNamespaceInstanceReason
        "Error finding namespace for instance. " env.now
      (some "Failed to get namespace during instance create",
        updateInstanceStatus stamp toUpdate ctx)
    else
      -- provision at the broker
      let ctx := { ctx with provisionCalls := ctx.provisionCalls + 1 }
      match env.provisionResult with
      | .err e =>
        match e with
        | .httpError code em d =>
          -- broker rejection: permanent failure, not retried
          let toUpdate := setInstanceCondition toUpdate .failed .conditionTrue
            "BrokerReturnedFailure"
            ("Error provisioning Instance: " ++
              osbErrorMessage (.httpError code em d)) env.now
          let toUpdate := setInstanceCondition toUpdate .ready .conditionFalse
            errorProvisionCallFailedReason
            "Broker returned a failure for provision call; operation will not be retried: "
            env.now
          (none, updateInstanceStatus stamp toUpdate ctx)
        | .otherError m =>
          -- transport error: retryable
          let toUpdate := setInstanceCondition toUpdate .ready .conditionFalse
            errorErrorCallingProvisionReason
            "Provision call failed and will be retried: " env.now
          (some m, updateInstanceStatus stamp toUpdate ctx)
      | .ok response =>
        let toUpdate :=
          match response.dashboardURL with
          | some u =>
            if u ≠ "" then
              { toUpdate with status :=
                { toUpdate.status with dashboardURL := some u } }
            else toUpdate
          | none => toUpdate
        if response.async then
          let toUpdate :=
            match response.operationKey with
            | some k =>
              if k ≠ "" then
                { toUpdate with status :=
                  { toUpdate.status with lastOperation := some k } }
              else toUpdate
            | none => toUpdate
          let toUpdate :=
            { toUpdate with status :=
              { toUpdate.status with asyncOpInProgress := true } }
          let toUpdate := setInstanceCondition toUpdate .ready .conditionFalse
            asyncProvisioningReason asyncProvisioningMessage env.now
          let ctx := updateInstanceStatus stamp toUpdate ctx
          (none, { ctx with pollingAdds := ctx.pollingAdds + 1 })
        else
          let toUpdate := setInstanceCondition toUpdate .ready .conditionTrue
            successProvisionReason successProvisionMessage env.now
          (none, updateInstanceStatus stamp toUpdate ctx)

end ServiceCatalog

namespace ServiceCatalog

/-! ## Broker data model -/

/-- `v1alpha1.ServiceBrokerConditionType`: "Ready" and "Failed". -/
inductive ServiceBrokerConditionType where
  | ready
  | failed
  deriving DecidableEq, Repr

/-- `v1alpha1.ServiceBrokerCondition`. -/
structure ServiceBrokerCondition where
  condType : ServiceBrokerConditionType
  status : ConditionStatus
  reason : String
  message : String
  lastTransitionTime : Nat
  deriving DecidableEq, Repr

/-- `v1alpha1.ServiceBrokerRelistBehavior`. -/
inductive RelistBehavior where
  | duration
  | manual
  deriving DecidableEq, Repr

/-- The part of `v1alpha1.ClusterServiceBrokerSpec` read by the reconciler;
`relistDuration` models the nillable `*metav1.Duration`. -/
structure BrokerSpec where
  url : String
  relistBehavior : RelistBehavior
  relistDuration : Option Nat
  deriving DecidableEq, Repr

/-- `v1alpha1.ClusterServiceBrokerStatus`. -/
structure BrokerStatus where
  conditions : List ServiceBrokerCondition
  reconciledGeneration : Nat
  operationStartTime : Option Nat
  deriving DecidableEq, Repr

/-- `v1alpha1.ClusterServiceBroker` with the metadata the reconciler reads. -/
structure Broker where
  name : String
  generation : Nat
  deletionTimestamp : Option Nat
  finalizers : List String
  spec : BrokerSpec
  status : BrokerStatus
  deriving DecidableEq, Repr

/-! ## Broker condition machinery (`updateClusterServiceBrokerCondition`) -/

/-- The `for .. { if cond.Type == conditionType { ..; break } }` loop of
`updateClusterServiceBrokerCondition`: the first condition whose `Type`
matches is replaced (bumping `LastTransitionTime` to `t` exactly when the
status changed); a list without a matching condition is returned
unchanged — unlike the instance variant, no append is performed. -/
def brokerCondScan (newC : ServiceBrokerCondition) (t : Nat) :
    List ServiceBrokerCondition → List ServiceBrokerCondition
  | [] => []
  | c :: rest =>
    if c.condType = newC.condType then
      { newC with
        lastTransitionTime :=
          if c.status ≠ newC.status then t else c.lastTransitionTime } :: rest
    else
      c :: brokerCondScan newC t rest

/-- The condition update performed by `updateClusterServiceBrokerCondition`
on the conditions list: the dedicated `len == 0` branch sets a singleton
list, otherwise the scan loop runs. -/
def setBrokerCondList (conds : List ServiceBrokerCondition)
    (newC : ServiceBrokerCondition) (t : Nat) : List ServiceBrokerCondition :=
  if conds.isEmpty then [{ newC with lastTransitionTime := t }]
  else brokerCondScan newC t conds

/-- Effect context of one broker reconciliation: persisted broker plus the
count of status writes. -/
structure BrokerCtx where
  stored : Broker
  statusUpdates : Nat := 0
  deriving DecidableEq, Repr

/-- `ClusterServiceBrokers().UpdateStatus`: the infallible store replaces
the persisted broker with the written object. -/
def brokerUpdateStatus (toUpdate : Broker) (ctx : BrokerCtx) : BrokerCtx :=
  { ctx with stored := toUpdate, statusUpdates := ctx.statusUpdates + 1 }

/-- `updateClusterServiceBrokerCondition`: deep-copy the broker object
passed by the caller, update the conditions list, set
`ReconciledGeneration` when the Ready condition is set to true, and
persist.  `t` is the `time.Now()` read. -/
def updateClusterServiceBrokerCondition (b : Broker)
    (conditionType : ServiceBrokerConditionType) (status : ConditionStatus)
    (reason message : String) (t : Nat) (ctx : BrokerCtx) : BrokerCtx :=
  let newCondition : ServiceBrokerCondition :=
    { condType := conditionType, status := status, reason := reason,
      message := message, lastTransitionTime := 0 }
  let toUpdate :=
    { b with status :=
      { b.status with
        conditions := setBrokerCondList b.status.conditions newCondition t } }
  let toUpdate :=
    if conditionType = ServiceBrokerConditionType.ready ∧
        status = ConditionStatus.conditionTrue then
      { toUpdate with status :=
        { toUpdate.status with reconciledGeneration := toUpdate.generation } }
    else toUpdate
  brokerUpdateStatus toUpdate ctx

/-- `updateClusterServiceBrokerFinalizers`: fetch the latest persisted
broker, set its finalizer list, persist. -/
def updateClusterServiceBrokerFinalizers (finalizers : List String)
    (ctx : BrokerCtx) : BrokerCtx :=
  brokerUpdateStatus { ctx.stored with finalizers := finalizers } ctx

/-! ## `shouldReconcileClusterServiceBroker` -/

/-- The condition scan of `shouldReconcileClusterServiceBroker`: the first
Ready-type condition decides; a list without one yields `true`.
`now.After(t)` is strict comparison. -/
def shouldReconcileScan (spec : BrokerSpec) (now : Nat) :
    List ServiceBrokerCondition → Bool
  | [] => true
  | c :: rest =>
    if c.condType = ServiceBrokerConditionType.ready then
      if c.status = ConditionStatus.conditionTrue then
        if spec.relistBehavior = RelistBehavior.manual then false
        else
          match spec.relistDuration with
          | none => false
          | some d => decide (c.lastTransitionTime + d < now)
      else true
    else shouldReconcileScan spec now rest

/-- `shouldReconcileClusterServiceBroker`: whether a broker needs
reconciliation at instant `now`. -/
def shouldReconcileClusterServiceBroker (broker : Broker) (now : Nat) : Bool :=
  if broker.status.reconciledGeneration ≠ broker.generation then true
  else if broker.deletionTimestamp ≠ none ∨ broker.status.conditions.isEmpty then
    true
  else shouldReconcileScan broker.spec now broker.status.conditions

/-! ## Catalog conversion (`convertCatalog`, `convertServicePlans`) -/

/-- `osb.Plan`.  `metadata` models the pre-serialized `Metadata` payload
(`json.Marshal` of a decoded JSON map cannot fail and is not modelled as
fallible). -/
structure OsbPlan where
  id : String
  name : String
  description : String
  free : Option Bool
  bindable : Option Bool
  metadata : Option String
  deriving DecidableEq, Repr

/-- `osb.Service`. -/
structure OsbService where
  id : String
  name : String
  description : String
  bindable : Bool
  planUpdatable : Option Bool
  tags : List String
  requires : List String
  metadata : Option String
  plans : List OsbPlan
  deriving DecidableEq, Repr

/-- `osb.CatalogResponse`. -/
structure CatalogResponse where
  services : List OsbService
  deriving DecidableEq, Repr

/-- `v1alpha1.ServiceClass` as produced by `convertCatalog` (name is set to
the broker-assigned service ID). -/
structure ServiceClass where
  name : String
  externalID : String
  externalName : String
  description : String
  bindable : Bool
  planUpdatable : Bool
  tags : List String
  requires : List String
  externalMetadata : Option String
  deriving DecidableEq, Repr

/-- `v1alpha1.ServicePlan` as produced by `convertServicePlans` (name is
set to the broker-assigned plan ID; `serviceClassRef` is the owning
class's name). -/
structure ServicePlan where
  name : String
  externalID : String
  externalName : String
  description : String
  free : Bool
  bindable : Option Bool
  serviceClassRef : String
  externalMetadata : Option String
  deriving DecidableEq, Repr

/-- Result of a conversion that can fail with an error message. -/
inductive ConvResult (α : Type) where
  | convError (msg : String)
  | convOk (value : α)
  deriving DecidableEq, Repr

/-- `convertServicePlans`: rejects an empty plan list, otherwise projects
each `osb.Plan` onto a `ServicePlan` owned by `serviceClassID`. -/
def convertServicePlans (plans : List OsbPlan) (serviceClassID : String) :
    ConvResult (List ServicePlan) :=
  if plans.length = 0 then
    .convError ("ServiceClass " ++ serviceClassID ++ " must have at least one plan")
  else
    .convOk (plans.map (fun plan =>
      { name := plan.id,
        externalID := plan.id,
        externalName := plan.name,
        description := plan.description,
        free := plan.free.getD false,
        bindable := plan.bindable,
        serviceClassRef := serviceClassID,
        externalMetadata := plan.metadata }))

/-- The per-service loop of `convertCatalog`. -/
def convertServices : List OsbService →
    ConvResult (List ServiceClass × List ServicePlan)
  | [] => .convOk ([], [])
  | svc :: rest =>
    let serviceClass : ServiceClass :=
      { name := svc.id,
        externalID := svc.id,
        externalName := svc.name,
        description := svc.description,
        bindable := svc.bindable,
        planUpdatable := svc.planUpdatable.getD false,
        tags := svc.tags,
        requires := svc.requires,
        externalMetadata := svc.metadata }
    match convertServicePlans svc.plans serviceClass.name with
    | .convError e => .convError e
    | .convOk plans =>
      match convertServices rest with
      | .convError e => .convError e
      | .convOk (classes, morePlans) =>
        .convOk (serviceClass :: classes, plans ++ morePlans)

/-- `convertCatalog`: converts a broker catalog into service classes and
plans, failing (with no partial output) when any service's plan conversion
fails. -/
def convertCatalog (cat : CatalogResponse) :
    ConvResult (List ServiceClass × List ServicePlan) :=
  convertServices cat.services

/-! ## `reconcileClusterServiceBroker` -/

/-- Oracles for the external collaborators of one broker reconciliation.
`authOk`/`clientOk` stand for the auth-secret lookup and client
construction; `catalogResult` for `GetCatalog`; `plansReconcileOk` and
`classesReconcileOk` summarize the per-item `reconcileServicePlan` /
`reconcileServiceClassFromClusterServiceBrokerCatalog` upsert loops (they
write to the class/plan stores, which no claim concerns);
`listChildrenOk`/`deleteChildrenOk` likewise summarize the deletion
branch's list-and-delete loops. -/
structure BrokerEnv where
  now : Nat
  reconciliationRetryDuration : Nat
  authOk : Bool
  clientOk : Bool
  catalogResult : CallResult CatalogResponse
  plansReconcileOk : Bool
  classesReconcileOk : Bool
  listChildrenOk : Bool
  deleteChildrenOk : Bool
  deriving DecidableEq, Repr

/-- `reconcileClusterServiceBroker`: the broker control loop. -/
def reconcileClusterServiceBroker (env : BrokerEnv) (broker : Broker) :
    Option String × BrokerCtx :=
  let ctx : BrokerCtx := { stored := broker }
  if ¬ shouldReconcileClusterServiceBroker broker env.now then
    (none, ctx)
  else if broker.deletionTimestamp = none then
    -- add or update
    if ¬ env.authOk then
      (some "error getting broker auth credentials",
        updateClusterServiceBrokerCondition broker .ready .conditionFalse
          errorFetchingCatalogReason "Error fetching catalog. " env.now ctx)
    else if ¬ env.clientOk then
      (some "error creating client for broker",
        updateClusterServiceBrokerCondition broker .ready .conditionFalse
          errorFetchingCatalogReason "Error fetching catalog. " env.now ctx)
    else
      match env.catalogResult with
      | .err e =>
        let ctx := updateClusterServiceBrokerCondition broker .ready
          .conditionFalse errorFetchingCatalogReason
          ("Error fetching catalog. " ++ osbErrorMessage e) env.now ctx
        match broker.status.operationStartTime with
        | none =>
          -- first failure: record the operation start time
          let toUpdate :=
            { broker with status :=
              { broker.status with operationStartTime := some env.now } }
          (some (osbErrorMessage e), brokerUpdateStatus toUpdate ctx)
        | some t0 =>
          if ¬ (env.now < t0 + env.reconciliationRetryDuration) then
            -- retry-duration exceeded: stop reconciliation retries
            let toUpdate :=
              { broker with status :=
                { broker.status with
                  operationStartTime := none,
                  reconciledGeneration := broker.generation } }
            (none, updateClusterServiceBrokerCondition toUpdate .failed
              .conditionTrue errorReconciliationRetryTimeoutReason
              "Stopping reconciliation retries because too much time has elapsed"
              env.now ctx)
          else
            (some (osbErrorMessage e), ctx)
      | .ok brokerCatalog =>
        -- successful fetch: clear the operation start time if it was set
        let ctx :=
          if broker.status.operationStartTime ≠ none then
            brokerUpdateStatus
              { broker with status :=
                { broker.status with operationStartTime := none } } ctx
          else ctx
        match convertCatalog brokerCatalog with
        | .convError e =>
          (some ("Error converting catalog payload: " ++ e),
            updateClusterServiceBrokerCondition broker .ready .conditionFalse
              errorSyncingCatalogReason
              ("Error syncing catalog from ClusterServiceBroker. " ++ e)
              env.now ctx)
        | .convOk (serviceClasses, _servicePlans) =>
          if serviceClasses.length = 0 then
            (some "received zero services; at least one service is required",
              updateClusterServiceBrokerCondition broker .ready .conditionFalse
                errorSyncingCatalogReason
                "Error syncing catalog from ClusterServiceBroker. " env.now ctx)
          else if ¬ env.plansReconcileOk then
            (some "error reconciling servicePlan",
              updateClusterServiceBrokerCondition broker .ready .conditionFalse
                errorSyncingCatalogReason
                "Error syncing catalog from ClusterServiceBroker. " env.now ctx)
          else if ¬ env.classesReconcileOk then
            (some "error reconciling serviceClass",
              updateClusterServiceBrokerCondition broker .ready .conditionFalse
                errorSyncingCatalogReason
                "Error syncing catalog from ClusterServiceBroker. " env.now ctx)
          else
            (none,
              updateClusterServiceBrokerCondition broker .ready .conditionTrue
                successFetchedCatalogReason successFetchedCatalogMessage
                env.now ctx)
  else
    -- soft delete
    if broker.finalizers.contains finalizerServiceCatalog then
      if ¬ env.listChildrenOk then
        (some "error listing service classes",
          updateClusterServiceBrokerCondition broker .ready .conditionUnknown
            errorListingServiceClassesReason "Error listing service classes."
            env.now ctx)
      else if ¬ env.deleteChildrenOk then
        (some "error deleting service class or service plan",
          updateClusterServiceBrokerCondition broker .ready .conditionUnknown
            "ErrorDeletingServiceClass" "Error deleting service class."
            env.now ctx)
      else
        let ctx := updateClusterServiceBrokerCondition broker .ready
          .conditionFalse successClusterServiceBrokerDeletedReason
          "The broker was deleted successfully" env.now ctx
        let ctx := updateClusterServiceBrokerFinalizers
          (stringSetDelete broker.finalizers finalizerServiceCatalog) ctx
        (none, ctx)
    else
      (none, ctx)

/-! ## The generic worker loop (`worker` in controller.go) -/

/-- `maxRetries` in controller.go. -/
def maxRetries : Nat := 15

/-- Outcome of one pass of the `worker` inner function for a dequeued key.
`doneSuccess` records whether the rate-limiter state was forgotten. -/
inductive WorkerOutcome where
  | doneSuccess (forgot : Bool)
  | requeued
  | droppedAfterMaxRetries
  deriving DecidableEq, Repr

/-- One pass of `worker`: on a nil reconciler error the key is done (and
forgotten when `forgetAfterSuccess`); on an error the key is re-added
rate-limited while `NumRequeues < maxRetries`, otherwise it is forgotten
and dropped from the queue. -/
def workerStep (maxR : Nat) (forgetAfterSuccess : Bool) (numRequeues : Nat)
    (reconcileErr : Option String) : WorkerOutcome :=
  match reconcileErr with
  | none => WorkerOutcome.doneSuccess forgetAfterSuccess
  | some _ =>
    if numRequeues < maxR then WorkerOutcome.requeued
    else WorkerOutcome.droppedAfterMaxRetries

/-- The polling queue's worker as wired in `Run`: `maxRetries` retries and
`forgetAfterSuccess = false`. -/
def pollerWorkerStep (numRequeues : Nat) (reconcileErr : Option String) :
    WorkerOutcome :=
  workerStep maxRetries false numRequeues reconcileErr

end ServiceCatalog

namespace ServiceCatalog

/-! ## Concrete fixtures used by witnesses and counterexamples -/

/-- A representative instance spec. -/
def testInstanceSpec : InstanceSpec :=
  { serviceClassName := "test-serviceclass", planName := "default",
    externalID := "iguid", parameters := none }

/-- A synchronous-success provision response. -/
def okProvision : ProvisionResponse :=
  { async := false, operationKey := none, dashboardURL := none }

/-- A synchronous-success deprovision response. -/
def okDeprovision : DeprovisionResponse :=
  { async := false, operationKey := none }

/-- A succeeded last-operation response. -/
def okPoll : LastOperationResponse :=
  { state := .stateSucceeded, description := none }

/-- An environment in which every external call succeeds synchronously. -/
def baseInstanceEnv : InstanceEnv :=
  { resolveOk := true, nsOk := true, unmarshalOk := true,
    provisionResult := .ok okProvision,
    deprovisionResult := .ok okDeprovision,
    pollResult := .ok okPoll, now := 7 }

/-- A previously provisioned instance marked for deletion, carrying the
service-catalog finalizer and no async operation in flight. -/
def deletingInstance : Instance :=
  { namespaceName := "test-ns", name := "test-instance",
    deletionTimestamp := some 5,
    finalizers := [finalizerServiceCatalog],
    spec := testInstanceSpec,
    status := { conditions := [], asyncOpInProgress := false,
                checksum := some "cs", lastOperation := none,
                dashboardURL := none } }

/-- An environment whose deprovision call is accepted asynchronously with
operation key "op1". -/
def asyncDeprovisionEnv : InstanceEnv :=
  { baseInstanceEnv with
    deprovisionResult := .ok { async := true, operationKey := some "op1" } }

/-- An instance with a sticky Failed condition, never provisioned
(`status.checksum = nil`), not deleting, no async operation. -/
def failedInstance : Instance :=
  { namespaceName := "test-ns", name := "test-instance",
    deletionTimestamp := none,
    finalizers := [finalizerServiceCatalog],
    spec := testInstanceSpec,
    status := { conditions := [{ condType := .failed,
                                 status := .conditionTrue,
                                 reason := "BrokerReturnedFailure",
                                 message := "m",
                                 lastTransitionTime := 1 }],
                asyncOpInProgress := false,
                checksum := none, lastOperation := none,
                dashboardURL := none } }

/-- An instance with an asynchronous provision operation in flight. -/
def asyncProvisioningInstance : Instance :=
  { namespaceName := "test-ns", name := "test-instance",
    deletionTimestamp := none,
    finalizers := [finalizerServiceCatalog],
    spec := testInstanceSpec,
    status := { conditions := [{ condType := .ready,
                                 status := .conditionFalse,
                                 reason := asyncProvisioningReason,
                                 message := asyncProvisioningMessage,
                                 lastTransitionTime := 2 }],
                asyncOpInProgress := true,
                checksum := some "cs", lastOperation := some "op1",
                dashboardURL := none } }

/-- An environment whose last-operation poll reports in-progress. -/
def inProgressPollEnv : InstanceEnv :=
  { baseInstanceEnv with
    pollResult := .ok { state := .stateInProgress, description := none } }

/-- A broker whose catalog fetches have been failing since instant 50 and
whose spec generation is not yet reconciled. -/
def timedOutBroker : Broker :=
  { name := "test-broker", generation := 2, deletionTimestamp := none,
    finalizers := [],
    spec := { url := "http://example.com", relistBehavior := .duration,
              relistDuration := some 1000 },
    status := { conditions := [{ condType := .ready,
                                 status := .conditionFalse,
                                 reason := errorFetchingCatalogReason,
                                 message := "m",
                                 lastTransitionTime := 3 }],
                reconciledGeneration := 1, operationStartTime := some 50 } }

/-- A broker environment whose catalog fetch fails with a transport error,
with a 10-unit reconciliation retry duration, observed at instant 100. -/
def failingCatalogEnv : BrokerEnv :=
  { now := 100, reconciliationRetryDuration := 10, authOk := true,
    clientOk := true, catalogResult := .err (.otherError "connection refused"),
    plansReconcileOk := true, classesReconcileOk := true,
    listChildrenOk := true, deleteChildrenOk := true }

/-- An existing broker Failed-type condition. -/
def brokerFailedCond : ServiceBrokerCondition :=
  { condType := .failed, status := .conditionTrue, reason := "r",
    message := "m", lastTransitionTime := 1 }

/-- A broker whose status carries only a Failed-type condition. -/
def brokerWithFailedCond : Broker :=
  { name := "test-broker", generation := 1, deletionTimestamp := none,
    finalizers := [],
    spec := { url := "http://example.com", relistBehavior := .duration,
              relistDuration := some 1000 },
    status := { conditions := [brokerFailedCond],
                reconciledGeneration := 1, operationStartTime := none } }

/-- Lookup of the condition of a given type on an instance's status. -/
def findInstanceCondition (conds : List InstanceCondition)
    (t : InstanceConditionType) : Option InstanceCondition :=
  conds.find? (fun c => c.condType = t)

/-- Lookup of the condition of a given type on a broker's status. -/
def findBrokerCondition (conds : List ServiceBrokerCondition)
    (t : ServiceBrokerConditionType) : Option ServiceBrokerCondition :=
  conds.find? (fun c => c.condType = t)

end ServiceCatalog

namespace ServiceCatalog

/-- An instance whose status checksum matches the digest of its spec, with
no async operation and no deletion timestamp (the no-op gate). -/
def matchingInstance : Instance :=
  { namespaceName := "test-ns", name := "test-instance",
    deletionTimestamp := none, finalizers := [],
    spec := testInstanceSpec,
    status := { conditions := [], asyncOpInProgress := false,
                checksum := some (instanceSpecChecksum testInstanceSpec),
                lastOperation := none, dashboardURL := none } }

/-- A never-reconciled instance: no conditions, no checksum, not deleting. -/
def freshInstance : Instance :=
  { namespaceName := "test-ns", name := "test-instance",
    deletionTimestamp := none, finalizers := [],
    spec := testInstanceSpec,
    status := { conditions := [], asyncOpInProgress := false,
                checksum := none, lastOperation := none,
                dashboardURL := none } }

/-- A provision call rejected by the broker with an HTTP 500. -/
def httpErrProvisionEnv : InstanceEnv :=
  { baseInstanceEnv with
    provisionResult := .err (.httpError 500 "em" "d") }

/-- A provision call failing with a transport error. -/
def transportErrProvisionEnv : InstanceEnv :=
  { baseInstanceEnv with
    provisionResult := .err (.otherError "dial tcp: connection refused") }

/-- A provision call accepted asynchronously with operation key "op1". -/
def asyncProvisionEnv : InstanceEnv :=
  { baseInstanceEnv with
    provisionResult := .ok { async := true, operationKey := some "op1",
                             dashboardURL := none } }

/-- The effect context at the start of a poll of `asyncProvisioningInstance`. -/
def pollCtx0 : Ctx := { stored := asyncProvisioningInstance }

/-- The effect context at the start of a condition update of
`brokerWithFailedCond`. -/
def brokerCtx0 : BrokerCtx := { stored := brokerWithFailedCond }

/-- A relisted broker whose Ready condition has been true since instant 3,
with a 100-unit relist duration. -/
def readyTrueBroker : Broker :=
  { name := "test-broker", generation := 1, deletionTimestamp := none,
    finalizers := [],
    spec := { url := "http://example.com", relistBehavior := .duration,
              relistDuration := some 100 },
    status := { conditions := [{ condType := .ready,
                                 status := .conditionTrue,
                                 reason := successFetchedCatalogReason,
                                 message := "m",
                                 lastTransitionTime := 3 }],
                reconciledGeneration := 1, operationStartTime := none } }

/-- A catalog service advertising no plans. -/
def svcNoPlans : OsbService :=
  { id := "sid", name := "svc", description := "d", bindable := true,
    planUpdatable := none, tags := [], requires := [], metadata := none,
    plans := [] }

/-- A catalog whose only service has an empty plan list. -/
def catalogNoPlans : CatalogResponse := { services := [svcNoPlans] }

end ServiceCatalog

namespace ServiceCatalog

/-! ## Claim theorems: concrete evaluations (code-bug exhibits and
counterexamples) -/

/-- C1: the claim states that no reconciliation step removes the
service-catalog finalizer while `Status.AsyncOpInProgress` is true.  The
code violates it: deprovisioning a deleting instance whose broker answers
asynchronously, `reconcileInstanceDelete` sets `AsyncOpInProgress = true`
and then falls through to the success path, which clears the finalizer —
the reconciliation returns nil with the persisted instance carrying
`AsyncOpInProgress = true` and no service-catalog finalizer. -/
theorem c1_finalizer_cleared_while_async_op_in_progress :
    (reconcileInstance false asyncDeprovisionEnv deletingInstance).1 = none ∧
    (reconcileInstance false asyncDeprovisionEnv
        deletingInstance).2.stored.status.asyncOpInProgress = true ∧
    (reconcileInstance false asyncDeprovisionEnv
        deletingInstance).2.stored.finalizers.contains finalizerServiceCatalog
      = false := by
  decide

/-- C3: the claim states that an asynchronous deprovision response makes
the reconciler record the operation key, set `AsyncOpInProgress = true`,
enqueue the key into the polling queue, and set the Ready condition to the
asynchronous-deprovisioning reason.  The code records the key and the
async flag, but performs no polling-queue add, and the Ready condition
persisted at the end of the reconciliation carries the
deprovision-success reason because the async branch falls through into the
success path (which also clears the finalizer). -/
theorem c3_async_deprovision_observed_effects :
    (reconcileInstance false asyncDeprovisionEnv
        deletingInstance).2.stored.status.lastOperation = some "op1" ∧
    (reconcileInstance false asyncDeprovisionEnv
        deletingInstance).2.stored.status.asyncOpInProgress = true ∧
    (reconcileInstance false asyncDeprovisionEnv
        deletingInstance).2.pollingAdds = 0 ∧
    findInstanceCondition (reconcileInstance false asyncDeprovisionEnv
        deletingInstance).2.stored.status.conditions .ready =
      some { condType := .ready, status := .conditionFalse,
             reason := successDeprovisionReason,
             message := successDeprovisionMessage,
             lastTransitionTime := 7 } ∧
    (reconcileInstance false asyncDeprovisionEnv
        deletingInstance).2.stored.finalizers = [] := by
  decide

/-- C9: the claim states that when the elapsed time since
`OperationStartTime` exceeds the retry duration, the reconciler clears
`OperationStartTime`, sets a terminal Failed=True condition with the
retry-timeout reason, and returns nil.  The code clears the start time,
sets `ReconciledGeneration`, and returns nil — but the terminal Failed
condition is never recorded when the broker already has any condition,
because `updateClusterServiceBrokerCondition` does not append a condition
of a type absent from a non-empty list. -/
theorem c9_retry_timeout_observed_effects :
    (reconcileClusterServiceBroker failingCatalogEnv timedOutBroker).1 = none ∧
    (reconcileClusterServiceBroker failingCatalogEnv
        timedOutBroker).2.stored.status.operationStartTime = none ∧
    (reconcileClusterServiceBroker failingCatalogEnv
        timedOutBroker).2.stored.status.reconciledGeneration = 2 ∧
    findBrokerCondition (reconcileClusterServiceBroker failingCatalogEnv
        timedOutBroker).2.stored.status.conditions .failed = none := by
  decide

/-- C2 counterexample: an instance with a sticky Failed condition, a nil
status checksum, no async operation and no deletion timestamp is
reconciled successfully (nil error) with zero status updates, yet the
digest of its spec differs from its status checksum and no async
operation is in flight — falsifying the claim as stated. -/
theorem c2_counterexample :
    (reconcileInstance true baseInstanceEnv failedInstance).1 = none ∧
    (reconcileInstance true baseInstanceEnv failedInstance).2.statusUpdates = 0 ∧
    (reconcileInstance true baseInstanceEnv
        failedInstance).2.stored.status.asyncOpInProgress = false ∧
    (reconcileInstance true baseInstanceEnv
        failedInstance).2.stored.status.checksum ≠
      some (instanceSpecChecksum (reconcileInstance true baseInstanceEnv
        failedInstance).2.stored.spec) := by
  decide

/-- C4 counterexample: polling an instance whose operation is still
reported in-progress returns an error while the persisted instance still
has `AsyncOpInProgress = true`; the polling queue's worker, seeing
`NumRequeues = maxRetries`, drops the key permanently — falsifying the
claim that a key is never permanently dropped while its asynchronous
operation is still in progress. -/
theorem c4_counterexample :
    (pollInstanceInternal false inProgressPollEnv asyncProvisioningInstance
        pollCtx0).1 ≠ none ∧
    (pollInstanceInternal false inProgressPollEnv asyncProvisioningInstance
        pollCtx0).2.stored.status.asyncOpInProgress = true ∧
    pollerWorkerStep maxRetries
      (pollInstanceInternal false inProgressPollEnv asyncProvisioningInstance
        pollCtx0).1 = WorkerOutcome.droppedAfterMaxRetries := by
  decide

/-- C7 counterexample: setting the Ready condition on a broker whose
status holds only a Failed-type condition leaves the conditions list
unchanged — no Ready condition is appended — falsifying the claim that
the broker condition-setting operation appends a missing condition with
`LastTransitionTime = now`. -/
theorem c7_counterexample :
    (updateClusterServiceBrokerCondition brokerWithFailedCond .ready
        .conditionTrue "r2" "m2" 9 brokerCtx0).stored.status.conditions =
      [brokerFailedCond] ∧
    findBrokerCondition (updateClusterServiceBrokerCondition
        brokerWithFailedCond .ready .conditionTrue "r2" "m2" 9
        brokerCtx0).stored.status.conditions .ready = none := by
  decide

end ServiceCatalog

namespace ServiceCatalog

/-! ## Helper lemmas on the condition machinery -/

/-- If no condition of the new condition's type is present, the instance
condition scan appends the new condition with `LastTransitionTime = t`. -/
theorem setInstanceCondScan_of_find_none (newC : InstanceCondition) (t : Nat)
    (conds : List InstanceCondition)
    (h : conds.find? (fun c => c.condType = newC.condType) = none) :
    setInstanceCondScan newC t conds =
      conds ++ [{ newC with lastTransitionTime := t }] := by
  induction conds with
  | nil => simp [setInstanceCondScan]
  | cons c rest ih =>
    by_cases hc : c.condType = newC.condType
    · rw [List.find?_cons_of_pos _ (by simp [hc])] at h
      exact absurd h (by simp)
    · rw [List.find?_cons_of_neg _ (by simp [hc])] at h
      simp [setInstanceCondScan, hc, ih h]

/-- After the instance condition scan, a condition of the new condition's
type is always present, carrying the new status, reason and message. -/
theorem setInstanceCondScan_find_self (newC : InstanceCondition) (t : Nat)
    (conds : List InstanceCondition) :
    ∃ ltt, (setInstanceCondScan newC t conds).find?
        (fun c => c.condType = newC.condType) =
      some { newC with lastTransitionTime := ltt } := by
  induction conds with
  | nil => exact ⟨t, by simp [setInstanceCondScan]⟩
  | cons c rest ih =>
    by_cases hc : c.condType = newC.condType
    · exact ⟨if c.status ≠ newC.status then t else c.lastTransitionTime,
        by simp [setInstanceCondScan, hc]⟩
    · obtain ⟨ltt, hltt⟩ := ih
      refine ⟨ltt, ?_⟩
      rw [show setInstanceCondScan newC t (c :: rest) =
        c :: setInstanceCondScan newC t rest by simp [setInstanceCondScan, hc]]
      rw [List.find?_cons_of_neg _ (by simp [hc])]
      exact hltt

/-- When a condition of the new condition's type exists, the instance
condition scan replaces it, bumping `LastTransitionTime` to `t` exactly
when the status changed. -/
theorem setInstanceCondScan_of_find_some (newC : InstanceCondition) (t : Nat)
    (conds : List InstanceCondition) (old : InstanceCondition)
    (h : conds.find? (fun c => c.condType = newC.condType) = some old) :
    (setInstanceCondScan newC t conds).find?
        (fun c => c.condType = newC.condType) =
      some { newC with lastTransitionTime :=
        if old.status ≠ newC.status then t else old.lastTransitionTime } := by
  induction conds with
  | nil => simp at h
  | cons c rest ih =>
    by_cases hc : c.condType = newC.condType
    · rw [List.find?_cons_of_pos _ (by simp [hc])] at h
      injection h with h
      subst h
      simp [setInstanceCondScan, hc]
    · rw [List.find?_cons_of_neg _ (by simp [hc])] at h
      rw [show setInstanceCondScan newC t (c :: rest) =
        c :: setInstanceCondScan newC t rest by simp [setInstanceCondScan, hc]]
      rw [List.find?_cons_of_neg _ (by simp [hc])]
      exact ih h

/-- The instance condition scan leaves conditions of other types unchanged
(as observed through lookup by type). -/
theorem setInstanceCondScan_find_other (newC : InstanceCondition) (t : Nat)
    (conds : List InstanceCondition) (t' : InstanceConditionType)
    (h : t' ≠ newC.condType) :
    (setInstanceCondScan newC t conds).find? (fun c => c.condType = t') =
      conds.find? (fun c => c.condType = t') := by
  induction conds with
  | nil => simp [setInstanceCondScan, Ne.symm h]
  | cons c rest ih =>
    by_cases hc : c.condType = newC.condType
    · have hct : ¬ (c.condType = t') := by
        rw [hc]; exact Ne.symm h
      rw [show setInstanceCondScan newC t (c :: rest) =
        { newC with lastTransitionTime :=
          if c.status ≠ newC.status then t else c.lastTransitionTime } :: rest by
        simp [setInstanceCondScan, hc]]
      rw [List.find?_cons_of_neg _ (by simp [Ne.symm h]),
        List.find?_cons_of_neg _ (by simp [hct])]
    · rw [show setInstanceCondScan newC t (c :: rest) =
        c :: setInstanceCondScan newC t rest by simp [setInstanceCondScan, hc]]
      by_cases hct : c.condType = t'
      · rw [List.find?_cons_of_pos _ (by simp [hct]),
          List.find?_cons_of_pos _ (by simp [hct])]
      · rw [List.find?_cons_of_neg _ (by simp [hct]),
          List.find?_cons_of_neg _ (by simp [hct])]
        exact ih

/-- The broker condition scan leaves a list without a matching condition
unchanged: nothing is appended. -/
theorem brokerCondScan_of_find_none (newC : ServiceBrokerCondition) (t : Nat)
    (conds : List ServiceBrokerCondition)
    (h : conds.find? (fun c => c.condType = newC.condType) = none) :
    brokerCondScan newC t conds = conds := by
  induction conds with
  | nil => simp [brokerCondScan]
  | cons c rest ih =>
    by_cases hc : c.condType = newC.condType
    · rw [List.find?_cons_of_pos _ (by simp [hc])] at h
      exact absurd h (by simp)
    · rw [List.find?_cons_of_neg _ (by simp [hc])] at h
      simp [brokerCondScan, hc, ih h]

/-- When a condition of the new condition's type exists, the broker
condition scan replaces it, bumping `LastTransitionTime` to `t` exactly
when the status changed. -/
theorem brokerCondScan_of_find_some (newC : ServiceBrokerCondition) (t : Nat)
    (conds : List ServiceBrokerCondition) (old : ServiceBrokerCondition)
    (h : conds.find? (fun c => c.condType = newC.condType) = some old) :
    (brokerCondScan newC t conds).find?
        (fun c => c.condType = newC.condType) =
      some { newC with lastTransitionTime :=
        if old.status ≠ newC.status then t else old.lastTransitionTime } := by
  induction conds with
  | nil => simp at h
  | cons c rest ih =>
    by_cases hc : c.condType = newC.condType
    · rw [List.find?_cons_of_pos _ (by simp [hc])] at h
      injection h with h
      subst h
      simp [brokerCondScan, hc]
    · rw [List.find?_cons_of_neg _ (by simp [hc])] at h
      rw [show brokerCondScan newC t (c :: rest) =
        c :: brokerCondScan newC t rest by simp [brokerCondScan, hc]]
      rw [List.find?_cons_of_neg _ (by simp [hc])]
      exact ih h

/-- Stamping the status checksum does not change the conditions. -/
theorem stampStatusChecksum_conditions (stamp : Bool) (x : Instance) :
    (stampStatusChecksum stamp x).status.conditions = x.status.conditions := by
  cases stamp <;> simp [stampStatusChecksum]

/-- A status update under the checksum-stamping store model leaves the
persisted checksum equal to the digest of the persisted spec. -/
theorem updateInstanceStatus_true_stamped (x : Instance) (ctx : Ctx) :
    (updateInstanceStatus true x ctx).stored.status.checksum =
      some (instanceSpecChecksum (updateInstanceStatus true x ctx).stored.spec) := by
  simp [updateInstanceStatus, stampStatusChecksum]

/-- A successful `reconcileInstanceDelete` either leaves the effect context
untouched or ends on a status write (so the stamped checksum is current). -/
theorem reconcileInstanceDelete_nil_cases (env : InstanceEnv) (inst : Instance)
    (ctx : Ctx) (h : (reconcileInstanceDelete true env inst ctx).1 = none) :
    (reconcileInstanceDelete true env inst ctx).2 = ctx ∨
    (reconcileInstanceDelete true env inst ctx).2.stored.status.checksum =
      some (instanceSpecChecksum
        (reconcileInstanceDelete true env inst ctx).2.stored.spec) := by
  by_cases h1 : inst.deletionTimestamp = none
  · left
    simp [reconcileInstanceDelete, h1]
  · by_cases h2 : finalizerServiceCatalog ∈ inst.finalizers
    · by_cases h3 : inst.status.asyncOpInProgress = false ∧
          inst.status.checksum = none
      · right
        simp [reconcileInstanceDelete, h1, h2, h3.1, h3.2,
          updateInstanceFinalizers, updateInstanceStatus, stampStatusChecksum]
      · by_cases h4 : env.resolveOk
        · by_cases h5 : isInstanceFailed inst
          · right
            simp [reconcileInstanceDelete, h1, h2, h3, h4, h5,
              updateInstanceFinalizers, updateInstanceStatus,
              stampStatusChecksum]
          · rcases henv : env.deprovisionResult with resp | e
            · right
              by_cases h6 : resp.async
              · simp [reconcileInstanceDelete, h1, h2, h3, h4, h5, henv, h6,
                  updateInstanceFinalizers, updateInstanceStatus,
                  stampStatusChecksum]
              · simp [reconcileInstanceDelete, h1, h2, h3, h4, h5, henv, h6,
                  updateInstanceFinalizers, updateInstanceStatus,
                  stampStatusChecksum]
            · exfalso
              simp [reconcileInstanceDelete, h1, h2, h3, h4, h5, henv] at h
        · exfalso
          simp [reconcileInstanceDelete, h1, h2, h3, h4] at h
    · left
      simp [reconcileInstanceDelete, h1, h2]

/-- A successful `pollInstance` always ends on a status write, so the
stamped checksum is current. -/
theorem pollInstance_nil_stamped (env : InstanceEnv) (inst : Instance)
    (ctx : Ctx) (h : (pollInstance true env inst ctx).1 = none) :
    (pollInstance true env inst ctx).2.stored.status.checksum =
      some (instanceSpecChecksum
        (pollInstance true env inst ctx).2.stored.spec) := by
  rcases henv : env.pollResult with resp | e
  · rcases hstate : resp.state with _ | _ | _ | s
    · exfalso
      simp [pollInstance, henv, hstate] at h
    · by_cases hdel : inst.deletionTimestamp ≠ none
      · by_cases hfin : finalizerServiceCatalog ∈ inst.finalizers
        · simp [pollInstance, henv, hstate, hdel, hfin,
            updateInstanceFinalizers, updateInstanceCondition,
            updateInstanceStatus, stampStatusChecksum]
        · simp [pollInstance, henv, hstate, hdel, hfin,
            updateInstanceFinalizers, updateInstanceCondition,
            updateInstanceStatus, stampStatusChecksum]
      · simp [pollInstance, henv, hstate, hdel, updateInstanceCondition,
          updateInstanceStatus, stampStatusChecksum]
    · simp [pollInstance, henv, hstate, updateInstanceCondition,
        updateInstanceStatus, stampStatusChecksum]
    · exfalso
      simp [pollInstance, henv, hstate] at h
  · by_cases hgd : isGoneError e ∧ inst.deletionTimestamp ≠ none
    · by_cases hfin : finalizerServiceCatalog ∈ inst.finalizers
      · simp [pollInstance, henv, hgd, hfin, updateInstanceFinalizers,
          updateInstanceCondition, updateInstanceStatus, stampStatusChecksum]
      · simp [pollInstance, henv, hgd, hfin, updateInstanceFinalizers,
          updateInstanceCondition, updateInstanceStatus, stampStatusChecksum]
    · exfalso
      simp [pollInstance, henv, hgd] at h

/-- A status write never touches the polling-addition counter. -/
theorem updateInstanceStatus_pollingAdds (stamp : Bool) (x : Instance)
    (ctx : Ctx) :
    (updateInstanceStatus stamp x ctx).pollingAdds = ctx.pollingAdds := by
  simp [updateInstanceStatus]

/-- `reconcileInstanceDelete` never adds to the polling queue. -/
theorem reconcileInstanceDelete_pollingAdds (stamp : Bool) (env : InstanceEnv)
    (inst : Instance) (ctx : Ctx) :
    (reconcileInstanceDelete stamp env inst ctx).2.pollingAdds =
      ctx.pollingAdds := by
  unfold reconcileInstanceDelete
  split
  · rfl
  · split
    · rfl
    · split
      · simp [updateInstanceFinalizers, updateInstanceStatus]
      · split
        · rfl
        · split
          · split
            · simp [updateInstanceStatus]
            · split <;>
                simp [updateInstanceFinalizers, updateInstanceStatus]
          · simp [updateInstanceFinalizers, updateInstanceStatus]

/-- `pollInstance` never adds to the polling queue. -/
theorem pollInstance_pollingAdds (stamp : Bool) (env : InstanceEnv)
    (inst : Instance) (ctx : Ctx) :
    (pollInstance stamp env inst ctx).2.pollingAdds = ctx.pollingAdds := by
  rcases henv : env.pollResult with resp | e
  · rcases hstate : resp.state with _ | _ | _ | s
    · by_cases hdesc : resp.description = none
      · simp [pollInstance, henv, hstate, hdesc]
      · simp [pollInstance, henv, hstate, hdesc, updateInstanceCondition,
          updateInstanceStatus]
    · by_cases hdel : inst.deletionTimestamp = none
      · simp [pollInstance, henv, hstate, hdel, updateInstanceCondition,
          updateInstanceStatus]
      · by_cases hfin : finalizerServiceCatalog ∈ inst.finalizers
        · simp [pollInstance, henv, hstate, hdel, hfin,
            updateInstanceFinalizers, updateInstanceCondition,
            updateInstanceStatus]
        · simp [pollInstance, henv, hstate, hdel, hfin,
            updateInstanceCondition, updateInstanceStatus]
    · simp [pollInstance, henv, hstate, updateInstanceCondition,
        updateInstanceStatus]
    · simp [pollInstance, henv, hstate]
  · by_cases hgd : isGoneError e = true ∧ ¬ inst.deletionTimestamp = none
    · by_cases hfin : finalizerServiceCatalog ∈ inst.finalizers
      · simp [pollInstance, henv, hgd, hfin, updateInstanceFinalizers,
          updateInstanceCondition, updateInstanceStatus]
      · simp [pollInstance, henv, hgd, hfin, updateInstanceCondition,
          updateInstanceStatus]
    · simp [pollInstance, henv, hgd]

/-- The `shouldReconcileClusterServiceBroker` scan is decided by the first
Ready-type condition. -/
theorem shouldReconcileScan_eq_find (spec : BrokerSpec) (now : Nat)
    (conds : List ServiceBrokerCondition) :
    shouldReconcileScan spec now conds =
      match conds.find? (fun c => c.condType = ServiceBrokerConditionType.ready) with
      | none => true
      | some c =>
        if c.status = ConditionStatus.conditionTrue then
          if spec.relistBehavior = RelistBehavior.manual then false
          else
            match spec.relistDuration with
            | none => false
            | some d => decide (c.lastTransitionTime + d < now)
        else true := by
  induction conds with
  | nil => simp [shouldReconcileScan]
  | cons c rest ih =>
    by_cases h : c.condType = ServiceBrokerConditionType.ready
    · simp [shouldReconcileScan, h, List.find?_cons_of_pos]
    · simp [shouldReconcileScan, h, List.find?_cons_of_neg, ih]

/-- Case analysis of `convertServices`: any service without plans makes the
whole conversion fail, and a successful conversion gives every class at
least one plan referencing it. -/
theorem convertServices_cases (services : List OsbService) :
    ((∃ svc ∈ services, svc.plans = []) →
      ∃ e, convertServices services = ConvResult.convError e) ∧
    (∀ classes plans,
      convertServices services = ConvResult.convOk (classes, plans) →
      ∀ sc ∈ classes, ∃ p ∈ plans, p.serviceClassRef = sc.name) := by
  induction services with
  | nil =>
    constructor
    · rintro ⟨svc, hmem, _⟩
      simp at hmem
    · intro classes plans h sc hsc
      simp [convertServices] at h
      rcases h with ⟨hc, _⟩
      subst hc
      simp at hsc
  | cons svc rest ih =>
    by_cases hempty : svc.plans = []
    · constructor
      · intro _
        refine ⟨"ServiceClass " ++ svc.id ++ " must have at least one plan", ?_⟩
        simp [convertServices, convertServicePlans, hempty]
      · intro classes plans h
        exfalso
        simp [convertServices, convertServicePlans, hempty] at h
    · have hlen : ¬ svc.plans.length = 0 := by
        simpa [List.length_eq_zero] using hempty
      constructor
      · rintro ⟨svc2, hmem, hpl⟩
        rcases List.mem_cons.mp hmem with heq | hmem2
        · subst heq
          exact absurd hpl hempty
        · obtain ⟨e, he⟩ := ih.1 ⟨svc2, hmem2, hpl⟩
          refine ⟨e, ?_⟩
          simp [convertServices, convertServicePlans, hlen, he]
      · intro classes plans h sc hsc
        rcases hrest : convertServices rest with e | pr
        · exfalso
          simp [convertServices, convertServicePlans, hlen, hrest] at h
        · rcases pr with ⟨cs, ps⟩
          simp [convertServices, convertServicePlans, hlen, hrest] at h
          rcases h with ⟨hc, hp⟩
          subst hp
          rw [← hc] at hsc
          rcases List.mem_cons.mp hsc with hsceq | hscmem
          · obtain ⟨q, hq⟩ := List.exists_mem_of_ne_nil svc.plans hempty
            subst hsceq
            refine ⟨{ name := q.id, externalID := q.id, externalName := q.name,
                      description := q.description, free := q.free.getD false,
                      bindable := q.bindable, serviceClassRef := svc.id,
                      externalMetadata := q.metadata }, ?_, rfl⟩
            apply List.mem_append_left
            exact List.mem_map_of_mem _ hq
          · obtain ⟨p, hpmem, href⟩ := ih.2 cs ps hrest sc hscmem
            exact ⟨p, List.mem_append_right _ hpmem, href⟩

end ServiceCatalog

namespace ServiceCatalog

/-! ## Claim theorems: universal statements and witnesses -/

/-- C2 (amended): under the spec-modelled checksum-stamping store, any
`reconcileInstance` that returns success leaves the digest of the persisted
spec equal to the persisted status checksum, unless an asynchronous
operation is in flight at the end of the reconciliation or the
reconciliation performed no status update at all (the failed-instance
skip, the checksum-match skip, and the deletion path when the
service-catalog finalizer is absent). -/
theorem c2_success_leaves_checksum_current_or_untouched (env : InstanceEnv)
    (inst : Instance) (h : (reconcileInstance true env inst).1 = none) :
    (reconcileInstance true env inst).2.stored.status.asyncOpInProgress = true ∨
    (reconcileInstance true env inst).2.stored.status.checksum =
      some (instanceSpecChecksum
        (reconcileInstance true env inst).2.stored.spec) ∨
    (reconcileInstance true env inst).2.statusUpdates = 0 := by
  by_cases hdt : inst.deletionTimestamp = none
  · by_cases hfail : isInstanceFailed inst = true
    · right; right
      simp [reconcileInstance, hdt, hfail]
    · by_cases hgate : inst.status.asyncOpInProgress = false ∧
          inst.status.checksum = some (instanceSpecChecksum inst.spec)
      · right; right
        simp [reconcileInstance, hdt, hfail, hgate.1, hgate.2]
      · by_cases hres : env.resolveOk = true
        · by_cases hasync : inst.status.asyncOpInProgress = true
          · have hred : reconcileInstance true env inst =
                pollInstance true env inst { stored := inst } := by
              simp [reconcileInstance, hdt, hfail, hasync, hres]
            rw [hred] at h ⊢
            right; left
            exact pollInstance_nil_stamped env inst _ h
          · have hasync2 : inst.status.asyncOpInProgress = false := by
              simpa using hasync
            have hckne : ¬ inst.status.checksum =
                some (instanceSpecChecksum inst.spec) := by
              intro hc
              exact hgate ⟨hasync2, hc⟩
            by_cases hpar : ¬ inst.spec.parameters = none ∧
                env.unmarshalOk = false
            · exfalso
              simp [reconcileInstance, hdt, hfail, hasync2, hres, hckne,
                hpar] at h
            · by_cases hns : env.nsOk = true
              · rcases henv : env.provisionResult with resp | e
                · by_cases hasy : resp.async = true
                  · right; left
                    simp [reconcileInstance, hdt, hfail, hasync2, hres, hckne,
                      hpar, hns, henv, hasy, updateInstanceStatus,
                      stampStatusChecksum]
                  · right; left
                    simp [reconcileInstance, hdt, hfail, hasync2, hres, hckne,
                      hpar, hns, henv, hasy, updateInstanceStatus,
                      stampStatusChecksum]
                · rcases e with ⟨code, em, d⟩ | ⟨msg⟩
                  · right; left
                    simp [reconcileInstance, hdt, hfail, hasync2, hres, hckne,
                      hpar, hns, henv, updateInstanceStatus,
                      stampStatusChecksum]
                  · exfalso
                    simp [reconcileInstance, hdt, hfail, hasync2, hres, hckne,
                      hpar, hns, henv] at h
              · exfalso
                simp [reconcileInstance, hdt, hfail, hasync2, hres, hckne,
                  hpar, hns] at h
        · exfalso
          by_cases hasync : inst.status.asyncOpInProgress = true
          · simp [reconcileInstance, hdt, hfail, hasync, hres] at h
          · have hasync2 : inst.status.asyncOpInProgress = false := by
              simpa using hasync
            have hckne : ¬ inst.status.checksum =
                some (instanceSpecChecksum inst.spec) := by
              intro hc
              exact hgate ⟨hasync2, hc⟩
            simp [reconcileInstance, hdt, hfail, hasync2, hres, hckne] at h
  · have hred : reconcileInstance true env inst =
        reconcileInstanceDelete true env inst { stored := inst } := by
      simp [reconcileInstance, hdt]
    rw [hred] at h ⊢
    rcases reconcileInstanceDelete_nil_cases env inst { stored := inst } h with
      hc | hc
    · right; right
      rw [hc]
    · right; left
      exact hc

/-- C2 witness: a fresh instance provisioned synchronously reconciles
successfully and the conclusion of the amended claim holds for it. -/
theorem c2_witness :
    (reconcileInstance true baseInstanceEnv
        freshInstance).2.stored.status.asyncOpInProgress = true ∨
    (reconcileInstance true baseInstanceEnv
        freshInstance).2.stored.status.checksum =
      some (instanceSpecChecksum (reconcileInstance true baseInstanceEnv
        freshInstance).2.stored.spec) ∨
    (reconcileInstance true baseInstanceEnv freshInstance).2.statusUpdates = 0 :=
  c2_success_leaves_checksum_current_or_untouched baseInstanceEnv freshInstance
    (by decide)

/-- C4 (amended): a key is added to the polling queue only when a
reconciliation observes an asynchronous provision response; a poll whose
result is terminal (succeeded/failed) or whose error is an HTTP 410 during
deletion returns success, upon which the worker removes the key from the
queue; on a poll error the worker re-adds the key while
`NumRequeues < maxRetries` and otherwise drops it permanently — even when
the asynchronous operation is still reported in-progress. -/
theorem c4_polling_queue_entry_and_exit (stamp : Bool) (env : InstanceEnv)
    (inst : Instance) :
    (0 < (reconcileInstance stamp env inst).2.pollingAdds →
      ∃ resp, env.provisionResult = CallResult.ok resp ∧ resp.async = true) ∧
    (∀ ctx resp, env.pollResult = CallResult.ok resp →
      (resp.state = LastOperationState.stateSucceeded ∨
        resp.state = LastOperationState.stateFailed) →
      env.resolveOk = true →
      ∀ n, pollerWorkerStep n (pollInstanceInternal stamp env inst ctx).1 =
        WorkerOutcome.doneSuccess false) ∧
    (∀ ctx e, env.pollResult = CallResult.err e → isGoneError e = true →
      inst.deletionTimestamp ≠ none → env.resolveOk = true →
      ∀ n, pollerWorkerStep n (pollInstanceInternal stamp env inst ctx).1 =
        WorkerOutcome.doneSuccess false) ∧
    (∀ n (e : String), (n < maxRetries →
        pollerWorkerStep n (some e) = WorkerOutcome.requeued) ∧
      (maxRetries ≤ n →
        pollerWorkerStep n (some e) = WorkerOutcome.droppedAfterMaxRetries)) := by
  refine ⟨?_, ?_, ?_, ?_⟩
  · intro hpos
    by_cases hdt : inst.deletionTimestamp = none
    · by_cases hfail : isInstanceFailed inst = true
      · exfalso
        simp [reconcileInstance, hdt, hfail] at hpos
      · by_cases hgate : inst.status.asyncOpInProgress = false ∧
            inst.status.checksum = some (instanceSpecChecksum inst.spec)
        · exfalso
          simp [reconcileInstance, hdt, hfail, hgate.1, hgate.2] at hpos
        · by_cases hres : env.resolveOk = true
          · by_cases hasync : inst.status.asyncOpInProgress = true
            · exfalso
              have hred : reconcileInstance stamp env inst =
                  pollInstance stamp env inst { stored := inst } := by
                simp [reconcileInstance, hdt, hfail, hasync, hres]
              rw [hred, pollInstance_pollingAdds] at hpos
              simp at hpos
            · have hasync2 : inst.status.asyncOpInProgress = false := by
                simpa using hasync
              have hckne : ¬ inst.status.checksum =
                  some (instanceSpecChecksum inst.spec) := by
                intro hc
                exact hgate ⟨hasync2, hc⟩
              by_cases hpar : ¬ inst.spec.parameters = none ∧
                  env.unmarshalOk = false
              · exfalso
                simp [reconcileInstance, hdt, hfail, hasync2, hres, hckne,
                  hpar, updateInstanceStatus] at hpos
              · by_cases hns : env.nsOk = true
                · rcases henv : env.provisionResult with resp | e
                  · by_cases hasy : resp.async = true
                    · exact ⟨resp, rfl, hasy⟩
                    · exfalso
                      simp [reconcileInstance, hdt, hfail, hasync2, hres,
                        hckne, hpar, hns, henv, hasy,
                        updateInstanceStatus] at hpos
                  · exfalso
                    rcases e with ⟨code, em, d⟩ | ⟨msg⟩ <;>
                      simp [reconcileInstance, hdt, hfail, hasync2, hres,
                        hckne, hpar, hns, henv, updateInstanceStatus] at hpos
                · exfalso
                  simp [reconcileInstance, hdt, hfail, hasync2, hres, hckne,
                    hpar, hns, updateInstanceStatus] at hpos
          · exfalso
            by_cases hasync : inst.status.asyncOpInProgress = true
            · simp [reconcileInstance, hdt, hfail, hasync, hres] at hpos
            · have hasync2 : inst.status.asyncOpInProgress = false := by
                simpa using hasync
              have hckne : ¬ inst.status.checksum =
                  some (instanceSpecChecksum inst.spec) := by
                intro hc
                exact hgate ⟨hasync2, hc⟩
              simp [reconcileInstance, hdt, hfail, hasync2, hres,
                hckne] at hpos
    · exfalso
      have hred : reconcileInstance stamp env inst =
          reconcileInstanceDelete stamp env inst { stored := inst } := by
        simp [reconcileInstance, hdt]
      rw [hred, reconcileInstanceDelete_pollingAdds] at hpos
      simp at hpos
  · intro ctx resp henv hterm hres n
    have hnil : (pollInstanceInternal stamp env inst ctx).1 = none := by
      rcases hterm with hst | hst
      · by_cases hdel : inst.deletionTimestamp = none
        · simp [pollInstanceInternal, hres, pollInstance, henv, hst, hdel]
        · by_cases hfin : finalizerServiceCatalog ∈ inst.finalizers
          · simp [pollInstanceInternal, hres, pollInstance, henv, hst, hdel,
              hfin]
          · simp [pollInstanceInternal, hres, pollInstance, henv, hst, hdel,
              hfin]
      · simp [pollInstanceInternal, hres, pollInstance, henv, hst]
    rw [hnil]
    rfl
  · intro ctx e henv hgone hdel hres n
    have hnil : (pollInstanceInternal stamp env inst ctx).1 = none := by
      by_cases hfin : finalizerServiceCatalog ∈ inst.finalizers
      · simp [pollInstanceInternal, hres, pollInstance, henv, hgone, hdel,
          hfin]
      · simp [pollInstanceInternal, hres, pollInstance, henv, hgone, hdel,
          hfin]
    rw [hnil]
    rfl
  · intro n e
    constructor
    · intro hlt
      simp [pollerWorkerStep, workerStep, hlt]
    · intro hge
      simp [pollerWorkerStep, workerStep, Nat.not_lt.mpr hge]

/-- C4 witness: provisioning a fresh instance against a broker that
answers asynchronously adds the key to the polling queue, and the amended
claim identifies the asynchronous response. -/
theorem c4_witness :
    ∃ resp, asyncProvisionEnv.provisionResult = CallResult.ok resp ∧
      resp.async = true :=
  (c4_polling_queue_entry_and_exit false asyncProvisionEnv freshInstance).1
    (by decide)

/-- C5: reconciling an instance whose status checksum is non-nil and equal
to the digest of its spec, with no asynchronous operation in progress and
no deletion timestamp, is a no-op: nil error, zero broker calls, zero
status updates, zero polling-queue additions, store untouched. -/
theorem c5_checksum_match_reconcile_is_noop (stamp : Bool) (env : InstanceEnv)
    (inst : Instance)
    (hasync : inst.status.asyncOpInProgress = false)
    (hdt : inst.deletionTimestamp = none)
    (hck : inst.status.checksum = some (instanceSpecChecksum inst.spec)) :
    (reconcileInstance stamp env inst).1 = none ∧
    (reconcileInstance stamp env inst).2 =
      { stored := inst, provisionCalls := 0, deprovisionCalls := 0,
        pollCalls := 0, statusUpdates := 0, pollingAdds := 0 } := by
  unfold reconcileInstance
  by_cases hf : isInstanceFailed inst = true
  · simp [hf, hdt]
  · simp [hf, hdt, hasync, hck]

/-- C5 witness: the no-op gate at a concrete checksum-matching instance. -/
theorem c5_witness :
    (reconcileInstance false baseInstanceEnv matchingInstance).1 = none ∧
    (reconcileInstance false baseInstanceEnv matchingInstance).2 =
      { stored := matchingInstance, provisionCalls := 0,
        deprovisionCalls := 0, pollCalls := 0, statusUpdates := 0,
        pollingAdds := 0 } :=
  c5_checksum_match_reconcile_is_noop false baseInstanceEnv matchingInstance
    rfl rfl rfl

/-- C6: when the gates before the provision call pass, an HTTP error from
the broker sets the Failed condition to True and the Ready condition to
False with the non-retried reason and returns nil (no retry); any other
provision error sets Ready to False with the retryable reason and returns
the error so the queue retries. -/
theorem c6_provision_error_mapping (stamp : Bool) (env : InstanceEnv)
    (inst : Instance)
    (hfail : isInstanceFailed inst = false)
    (hdt : inst.deletionTimestamp = none)
    (hasync : inst.status.asyncOpInProgress = false)
    (hck : inst.status.checksum ≠ some (instanceSpecChecksum inst.spec))
    (hres : env.resolveOk = true)
    (hpar : inst.spec.parameters = none ∨ env.unmarshalOk = true)
    (hns : env.nsOk = true) :
    (∀ code em d,
      env.provisionResult = CallResult.err (OsbError.httpError code em d) →
      (reconcileInstance stamp env inst).1 = none ∧
      (∃ fc, findInstanceCondition
          (reconcileInstance stamp env inst).2.stored.status.conditions
          .failed = some fc ∧
        fc.status = ConditionStatus.conditionTrue ∧
        fc.reason = "BrokerReturnedFailure") ∧
      (∃ rc, findInstanceCondition
          (reconcileInstance stamp env inst).2.stored.status.conditions
          .ready = some rc ∧
        rc.status = ConditionStatus.conditionFalse ∧
        rc.reason = errorProvisionCallFailedReason)) ∧
    (∀ msg,
      env.provisionResult = CallResult.err (OsbError.otherError msg) →
      (reconcileInstance stamp env inst).1 = some msg ∧
      (∃ rc, findInstanceCondition
          (reconcileInstance stamp env inst).2.stored.status.conditions
          .ready = some rc ∧
        rc.status = ConditionStatus.conditionFalse ∧
        rc.reason = errorErrorCallingProvisionReason)) := by
  have hparfalse : ¬ (inst.spec.parameters ≠ none ∧ ¬ env.unmarshalOk) := by
    rcases hpar with hp | hp
    · simp [hp]
    · simp [hp]
  constructor
  · intro code em d heq
    simp only [reconcileInstance, hfail, hdt, hasync, hres, hns, heq,
      hparfalse, updateInstanceStatus, setInstanceCondition,
      setInstanceConditionInternal]
    simp [hck, findInstanceCondition, stampStatusChecksum_conditions]
    constructor
    · obtain ⟨ltt, hltt⟩ := setInstanceCondScan_find_self
        { condType := .failed, status := .conditionTrue,
          reason := "BrokerReturnedFailure",
          message := "Error provisioning Instance: " ++
            osbErrorMessage (.httpError code em d),
          lastTransitionTime := 0 } env.now inst.status.conditions
      have hother := setInstanceCondScan_find_other
        { condType := .ready, status := .conditionFalse,
          reason := errorProvisionCallFailedReason,
          message := "Broker returned a failure for provision call; operation will not be retried: ",
          lastTransitionTime := 0 } env.now
        (setInstanceCondScan
          { condType := .failed, status := .conditionTrue,
            reason := "BrokerReturnedFailure",
            message := "Error provisioning Instance: " ++
              osbErrorMessage (.httpError code em d),
            lastTransitionTime := 0 } env.now inst.status.conditions)
        .failed (by decide)
      rw [hother]
      exact ⟨_, hltt, rfl, rfl⟩
    · obtain ⟨ltt, hltt⟩ := setInstanceCondScan_find_self
        { condType := .ready, status := .conditionFalse,
          reason := errorProvisionCallFailedReason,
          message := "Broker returned a failure for provision call; operation will not be retried: ",
          lastTransitionTime := 0 } env.now
        (setInstanceCondScan
          { condType := .failed, status := .conditionTrue,
            reason := "BrokerReturnedFailure",
            message := "Error provisioning Instance: " ++
              osbErrorMessage (.httpError code em d),
            lastTransitionTime := 0 } env.now inst.status.conditions)
      exact ⟨_, hltt, rfl, rfl⟩
  · intro msg heq
    simp only [reconcileInstance, hfail, hdt, hasync, hres, hns, heq,
      hparfalse, updateInstanceStatus, setInstanceCondition,
      setInstanceConditionInternal]
    simp [hck, findInstanceCondition, stampStatusChecksum_conditions]
    obtain ⟨ltt, hltt⟩ := setInstanceCondScan_find_self
      { condType := .ready, status := .conditionFalse,
        reason := errorErrorCallingProvisionReason,
        message := "Provision call failed and will be retried: ",
        lastTransitionTime := 0 } env.now inst.status.conditions
    exact ⟨_, hltt, rfl, rfl⟩

/-- C6 witness: the HTTP-error mapping at a concrete fresh instance. -/
theorem c6_witness :
    (reconcileInstance false httpErrProvisionEnv freshInstance).1 = none ∧
    (∃ fc, findInstanceCondition
        (reconcileInstance false httpErrProvisionEnv
          freshInstance).2.stored.status.conditions .failed = some fc ∧
      fc.status = ConditionStatus.conditionTrue ∧
      fc.reason = "BrokerReturnedFailure") ∧
    (∃ rc, findInstanceCondition
        (reconcileInstance false httpErrProvisionEnv
          freshInstance).2.stored.status.conditions .ready = some rc ∧
      rc.status = ConditionStatus.conditionFalse ∧
      rc.reason = errorProvisionCallFailedReason) :=
  (c6_provision_error_mapping false httpErrProvisionEnv freshInstance rfl rfl
    rfl (by decide) rfl (Or.inl rfl) rfl).1 500 "em" "d" rfl

end ServiceCatalog

namespace ServiceCatalog

/-- C7 (amended): the instance condition-setting operation behaves as
claimed: a missing condition is appended with `LastTransitionTime = t`, an
existing one is replaced with `LastTransitionTime` bumped to `t` exactly
when its status changes (reason and message may change without bumping
it).  The broker condition-setting operation satisfies the same
replacement rule and the empty-list rule, but when the conditions list is
non-empty and holds no condition of the given type, the list is left
unchanged — the missing condition is not appended. -/
theorem c7_condition_set_semantics :
    (∀ (inst : Instance) (ct : InstanceConditionType) (st : ConditionStatus)
        (r m : String) (t : Nat),
      (findInstanceCondition inst.status.conditions ct = none →
        (setInstanceConditionInternal inst ct st r m t).status.conditions =
          inst.status.conditions ++
            [{ condType := ct, status := st, reason := r, message := m,
               lastTransitionTime := t }]) ∧
      (∀ old, findInstanceCondition inst.status.conditions ct = some old →
        findInstanceCondition
            (setInstanceConditionInternal inst ct st r m
              t).status.conditions ct =
          some { condType := ct, status := st, reason := r, message := m,
                 lastTransitionTime :=
                   if old.status ≠ st then t else old.lastTransitionTime })) ∧
    (∀ (b : Broker) (ct : ServiceBrokerConditionType) (st : ConditionStatus)
        (r m : String) (t : Nat) (ctx : BrokerCtx),
      (b.status.conditions = [] →
        (updateClusterServiceBrokerCondition b ct st r m t
          ctx).stored.status.conditions =
          [{ condType := ct, status := st, reason := r, message := m,
             lastTransitionTime := t }]) ∧
      (∀ old, findBrokerCondition b.status.conditions ct = some old →
        findBrokerCondition
            (updateClusterServiceBrokerCondition b ct st r m t
              ctx).stored.status.conditions ct =
          some { condType := ct, status := st, reason := r, message := m,
                 lastTransitionTime :=
                   if old.status ≠ st then t else old.lastTransitionTime }) ∧
      (b.status.conditions ≠ [] →
        findBrokerCondition b.status.conditions ct = none →
        (updateClusterServiceBrokerCondition b ct st r m t
          ctx).stored.status.conditions = b.status.conditions)) := by
  constructor
  · intro inst ct st r m t
    constructor
    · intro hnone
      unfold findInstanceCondition at hnone
      simp only [setInstanceConditionInternal]
      rw [setInstanceCondScan_of_find_none _ _ _ hnone]
    · intro old hsome
      unfold findInstanceCondition at hsome ⊢
      simp only [setInstanceConditionInternal]
      exact setInstanceCondScan_of_find_some
        { condType := ct, status := st, reason := r, message := m,
          lastTransitionTime := 0 } t inst.status.conditions old hsome
  · intro b ct st r m t ctx
    refine ⟨?_, ?_, ?_⟩
    · intro hnil
      simp [updateClusterServiceBrokerCondition, brokerUpdateStatus,
        setBrokerCondList, hnil]
      split <;> simp
    · intro old hsome
      unfold findBrokerCondition at hsome ⊢
      have hne : b.status.conditions.isEmpty = false := by
        cases hconds : b.status.conditions with
        | nil => rw [hconds] at hsome; simp at hsome
        | cons x xs => simp
      simp only [updateClusterServiceBrokerCondition, brokerUpdateStatus,
        setBrokerCondList, hne]
      split
      · simpa using brokerCondScan_of_find_some
          { condType := ct, status := st, reason := r, message := m,
            lastTransitionTime := 0 } t b.status.conditions old hsome
      · simpa using brokerCondScan_of_find_some
          { condType := ct, status := st, reason := r, message := m,
            lastTransitionTime := 0 } t b.status.conditions old hsome
    · intro hne hnone
      unfold findBrokerCondition at hnone
      have hne2 : b.status.conditions.isEmpty = false := by
        cases hconds : b.status.conditions with
        | nil => exact absurd hconds hne
        | cons x xs => simp
      simp only [updateClusterServiceBrokerCondition, brokerUpdateStatus,
        setBrokerCondList, hne2]
      split
      · simpa using brokerCondScan_of_find_none
          { condType := ct, status := st, reason := r, message := m,
            lastTransitionTime := 0 } t b.status.conditions hnone
      · simpa using brokerCondScan_of_find_none
          { condType := ct, status := st, reason := r, message := m,
            lastTransitionTime := 0 } t b.status.conditions hnone

/-- C7 witness: appending the Ready condition to a condition-free instance
at instant 5. -/
theorem c7_witness :
    (setInstanceConditionInternal freshInstance .ready .conditionTrue "r"
      "m" 5).status.conditions =
      freshInstance.status.conditions ++
        [{ condType := .ready, status := .conditionTrue, reason := "r",
           message := "m", lastTransitionTime := 5 }] :=
  (c7_condition_set_semantics.1 freshInstance .ready .conditionTrue "r" "m"
    5).1 rfl

/-- C8: `shouldReconcileClusterServiceBroker` returns true when the
generation is unreconciled; otherwise true when deletion is requested or
no conditions exist; otherwise, for the Ready condition: when its status
is true, false under Manual relist behavior, and with a relist duration
configured, true exactly when `now` is after its transition time plus the
duration; when its status is not true, true. -/
theorem c8_shouldReconcile_semantics (b : Broker) (now : Nat) :
    (b.generation ≠ b.status.reconciledGeneration →
      shouldReconcileClusterServiceBroker b now = true) ∧
    (b.status.reconciledGeneration = b.generation →
      (b.deletionTimestamp ≠ none ∨ b.status.conditions = []) →
      shouldReconcileClusterServiceBroker b now = true) ∧
    (b.status.reconciledGeneration = b.generation →
      b.deletionTimestamp = none →
      ∀ c, findBrokerCondition b.status.conditions .ready = some c →
        ((c.status = ConditionStatus.conditionTrue →
            (b.spec.relistBehavior = RelistBehavior.manual →
              shouldReconcileClusterServiceBroker b now = false) ∧
            (b.spec.relistBehavior ≠ RelistBehavior.manual →
              ∀ d, b.spec.relistDuration = some d →
                (shouldReconcileClusterServiceBroker b now = true ↔
                  c.lastTransitionTime + d < now))) ∧
          (c.status ≠ ConditionStatus.conditionTrue →
            shouldReconcileClusterServiceBroker b now = true))) := by
  refine ⟨?_, ?_, ?_⟩
  · intro h
    simp [shouldReconcileClusterServiceBroker, Ne.symm h]
  · intro hgen hrest
    rcases hrest with h | h
    · simp [shouldReconcileClusterServiceBroker, hgen, h]
    · simp [shouldReconcileClusterServiceBroker, hgen, h]
  · intro hgen hdt c hfind
    have hne : b.status.conditions.isEmpty = false := by
      cases hconds : b.status.conditions with
      | nil => rw [hconds] at hfind; simp [findBrokerCondition] at hfind
      | cons x xs => simp
    have hmain : shouldReconcileClusterServiceBroker b now =
        shouldReconcileScan b.spec now b.status.conditions := by
      simp [shouldReconcileClusterServiceBroker, hgen, hdt, hne]
    rw [shouldReconcileScan_eq_find] at hmain
    unfold findBrokerCondition at hfind
    rw [hfind] at hmain
    constructor
    · intro hst
      constructor
      · intro hman
        rw [hmain]
        simp [hst, hman]
      · intro hman d hd
        rw [hmain]
        simp [hst, hman, hd]
    · intro hst
      rw [hmain]
      simp [hst]

/-- C8 witness: a ready broker with a 100-unit relist duration whose Ready
condition became true at instant 3 is due for reconciliation at 200. -/
theorem c8_witness :
    shouldReconcileClusterServiceBroker readyTrueBroker 200 = true := by
  have hc := (c8_shouldReconcile_semantics readyTrueBroker 200).2.2 rfl rfl
    { condType := .ready, status := .conditionTrue,
      reason := successFetchedCatalogReason, message := "m",
      lastTransitionTime := 3 } (by decide)
  exact ((hc.1 rfl).2 (by decide) 100 rfl).mpr (by decide)

/-- C10: a catalog in which some service advertises no plans makes
`convertCatalog` fail with an error (no partial output), and every class
of a successfully converted catalog has at least one plan referencing it. -/
theorem c10_convertCatalog_all_or_nothing (cat : CatalogResponse) :
    ((∃ svc ∈ cat.services, svc.plans = []) →
      ∃ e, convertCatalog cat = ConvResult.convError e) ∧
    (∀ classes plans,
      convertCatalog cat = ConvResult.convOk (classes, plans) →
      ∀ sc ∈ classes, ∃ p ∈ plans, p.serviceClassRef = sc.name) :=
  convertServices_cases cat.services

/-- C10 witness: the catalog whose only service has no plans is rejected. -/
theorem c10_witness :
    ∃ e, convertCatalog catalogNoPlans = ConvResult.convError e :=
  (c10_convertCatalog_all_or_nothing catalogNoPlans).1
    ⟨svcNoPlans, by decide, rfl⟩

end ServiceCatalog
